import Mathlib

/-!
Shallow embedding of the express-basics example servers.

Each request handler and middleware of the repository is translated into a
pure Lean function from its inputs (route parameters, query parameters,
parsed body fields, and the in-memory data arrays it closes over) to the
list of response-side calls it performs, in the order the JavaScript
executes them.  An event is one call on the response object
(res.status(..).send / .json, or res.writeHead / res.write / res.end in the
core-http examples) or one call of the continuation next().

JavaScript-specific primitives used by the handlers (Number(), string
includes(), toLowerCase(), Array.prototype.slice, truthiness of strings and
of optional query parameters) are embedded first, following ECMAScript
semantics for the string forms that can actually occur in URLs and bodies.
-/

namespace JS

/-- A JavaScript number as the handlers observe it: NaN, a signed infinity,
or a finite value (modelled exactly as a rational; every string the parsing
below accepts denotes a finite decimal, hex, octal or binary value). -/
inductive JSNum where
  | nan : JSNum
  | inf : Bool → JSNum
  | num : Rat → JSNum
deriving DecidableEq, Repr

/-- Decimal digit value of a character, if it is one. -/
def digit? (c : Char) : Option Nat :=
  if '0' ≤ c ∧ c ≤ '9' then some (c.toNat - '0'.toNat) else none

/-- Hexadecimal digit value of a character, if it is one. -/
def hexDigit? (c : Char) : Option Nat :=
  if '0' ≤ c ∧ c ≤ '9' then some (c.toNat - '0'.toNat)
  else if 'a' ≤ c ∧ c ≤ 'f' then some (c.toNat - 'a'.toNat + 10)
  else if 'A' ≤ c ∧ c ≤ 'F' then some (c.toNat - 'A'.toNat + 10)
  else none

/-- Octal digit value of a character, if it is one. -/
def octDigit? (c : Char) : Option Nat :=
  if '0' ≤ c ∧ c ≤ '7' then some (c.toNat - '0'.toNat) else none

/-- Binary digit value of a character, if it is one. -/
def binDigit? (c : Char) : Option Nat :=
  if c = '0' then some 0 else if c = '1' then some 1 else none

/-- Value of a non-empty all-digit string in the given radix;
`none` when empty or when any character is not a digit of the radix. -/
def radixVal? (dig : Char → Option Nat) (radix : Nat) (cs : List Char) : Option Nat :=
  match cs with
  | [] => none
  | _ =>
    cs.foldl
      (fun acc c =>
        match acc, dig c with
        | some n, some d => some (n * radix + d)
        | _, _ => none)
      (some 0)

/-- Value of a non-empty decimal digit string. -/
def decNat? (cs : List Char) : Option Nat := radixVal? digit? 10 cs

/-- Split a character list at the first occurrence of `c`;
`none` when `c` does not occur. -/
def splitOnce (c : Char) : List Char → Option (List Char × List Char)
  | [] => none
  | x :: xs =>
    if x = c then some ([], xs)
    else (splitOnce c xs).map (fun p => (x :: p.1, p.2))

/-- Exponent part of a decimal literal: an optional sign followed by digits. -/
def expVal? (cs : List Char) : Option Int :=
  match cs with
  | '+' :: rest => (decNat? rest).map Int.ofNat
  | '-' :: rest => (decNat? rest).map (fun n => -(n : Int))
  | _ => (decNat? cs).map Int.ofNat

/-- Mantissa of a decimal literal: digits, digits '.' digits?, or '.' digits. -/
def mantissa? (cs : List Char) : Option Rat :=
  match splitOnce '.' cs with
  | none => (decNat? cs).map (fun n => (n : Rat))
  | some (intPart, fracPart) =>
    if intPart = [] ∧ fracPart = [] then none
    else
      let iv : Option Nat := if intPart = [] then some 0 else decNat? intPart
      let fv : Option Rat :=
        if fracPart = [] then some 0
        else (decNat? fracPart).map (fun n => (n : Rat) / ((10 : Rat) ^ fracPart.length))
      match iv, fv with
      | some i, some f => some ((i : Rat) + f)
      | _, _ => none

/-- Split a decimal literal at its exponent marker 'e' or 'E', if present. -/
def splitExp (cs : List Char) : List Char × Option (List Char) :=
  match splitOnce 'e' cs with
  | some (a, b) => (a, some b)
  | none =>
    match splitOnce 'E' cs with
    | some (a, b) => (a, some b)
    | none => (cs, none)

/-- Value of an unsigned decimal literal with optional exponent. -/
def decValue? (cs : List Char) : Option Rat :=
  let (m, e) := splitExp cs
  match mantissa? m with
  | none => none
  | some mv =>
    match e with
    | none => some mv
    | some ecs => (expVal? ecs).map (fun ex => mv * (10 : Rat) ^ ex)

/-- Value of a decimal literal with optional leading sign. -/
def signedDec? (cs : List Char) : Option Rat :=
  match cs with
  | '+' :: rest => decValue? rest
  | '-' :: rest => (decValue? rest).map Neg.neg
  | _ => decValue? cs

/-- Whitespace as trimmed by ToNumber (the ASCII forms that occur in URLs). -/
def isWsChar (c : Char) : Bool := c = ' ' || c = '\t' || c = '\n' || c = '\r'

/-- Strip leading and trailing whitespace. -/
def trimChars (cs : List Char) : List Char :=
  ((cs.dropWhile isWsChar).reverse.dropWhile isWsChar).reverse

/-- ECMAScript ToNumber on a string, as invoked by `Number(s)` in the
handlers: trims whitespace, maps the empty string to 0, recognises
signed Infinity, 0x/0o/0b radix literals, and signed decimal literals
with optional fraction and exponent; everything else is NaN. -/
def toNumber (s : String) : JSNum :=
  let cs := trimChars s.data
  if cs = [] then .num 0
  else if cs = "Infinity".data ∨ cs = "+Infinity".data then .inf true
  else if cs = "-Infinity".data then .inf false
  else
    let special : Option JSNum :=
      match cs with
      | '0' :: x :: rest =>
        if x = 'x' ∨ x = 'X' then
          some (match radixVal? hexDigit? 16 rest with
                | some n => .num n
                | none => .nan)
        else if x = 'o' ∨ x = 'O' then
          some (match radixVal? octDigit? 8 rest with
                | some n => .num n
                | none => .nan)
        else if x = 'b' ∨ x = 'B' then
          some (match radixVal? binDigit? 2 rest with
                | some n => .num n
                | none => .nan)
        else none
      | _ => none
    match special with
    | some r => r
    | none =>
      match signedDec? cs with
      | some q => .num q
      | none => .nan

/-- Strict equality `n === i` between a ToNumber result and an integer id:
NaN and the infinities compare equal to nothing. -/
def eqInt (n : JSNum) (i : Int) : Bool :=
  match n with
  | .num q => q = (i : Rat)
  | _ => false

/-- Truncation toward zero, as ToIntegerOrInfinity applies to finite values. -/
def truncRat (q : Rat) : Int := if q < 0 then q.ceil else q.floor

/-- The number of elements `arr.slice(0, end)` keeps from an array of length
`len` when `end` is the JavaScript number `n`: NaN truncates to 0, a
negative end counts from the end of the array, and the result is clamped
to `[0, len]` (ECMAScript Array.prototype.slice). -/
def sliceEnd (len : Nat) (n : JSNum) : Nat :=
  match n with
  | .nan => 0
  | .inf b => if b then len else 0
  | .num q =>
    let k : Int := truncRat q
    let rel : Int := if k < 0 then max ((len : Int) + k) 0 else k
    min rel.toNat len

/-- Does the character list starting here begin with `needle`? -/
def startsWithChars : List Char → List Char → Bool
  | [], _ => true
  | _ :: _, [] => false
  | a :: as, b :: bs => a = b && startsWithChars as bs

/-- Does `needle` occur contiguously anywhere in the character list? -/
def containsChars (needle : List Char) : List Char → Bool
  | [] => needle.isEmpty
  | b :: bs => startsWithChars needle (b :: bs) || containsChars needle bs

/-- `s.includes(sub)` of JavaScript strings. -/
def includes (s sub : String) : Bool := containsChars sub.data s.data

/-- `s.toLowerCase()` of JavaScript strings, applied characterwise. -/
def toLowerStr (s : String) : String := String.mk (s.data.map Char.toLower)

/-- Truthiness of a string value: every string except the empty one. -/
def truthyStr (s : String) : Bool := s ≠ ""

/-- Truthiness of an optional query-string or body field: absent
(undefined) and the empty string are falsy, every other string truthy. -/
def truthy (o : Option String) : Bool :=
  match o with
  | none => false
  | some s => truthyStr s

end JS

/-- A product record of the hard-coded `products` array: numeric id, name,
price and image fields (spec, section 3). -/
structure Product where
  id : Int
  name : String
  price : Rat
  image : String
deriving DecidableEq, Repr

/-- A person record of the hard-coded `people` array: numeric id and name. -/
structure Person where
  id : Int
  name : String
deriving DecidableEq, Repr

/-- The projection `{ id, name, image }` sent by the products list route. -/
structure BasicInfo where
  id : Int
  name : String
  image : String
deriving DecidableEq, Repr

/-- The user object the authorize middleware attaches to the request. -/
structure AuthUser where
  name : String
  id : Int
deriving DecidableEq, Repr

/-- Response bodies sent by the embedded handlers, one constructor per
distinct payload shape appearing in the source. -/
inductive Body where
  | html (s : String)
  | raw (s : String)
  | file (path : String)
  | jsonProducts (ps : List Product)
  | jsonBasicInfos (xs : List BasicInfo)
  | jsonProduct (p : Product)
  | jsonSearchEmpty
  | jsonError (msg : String) (received : String)
  | jsonNotFound (searchedId : JS.JSNum)
  | jsonMultiParams (productId userPreferenceId reviewId : String)
  | jsonQueryEmpty
  | jsonQueryOk (count : Nat) (data : List Product)
  | jsonPeople (people : List Person)
  | jsonPersonCreated (name : String)
  | jsonMsg (success : Bool) (msg : String)
  | jsonMsgData (success : Bool) (data : String)
  | jsonData (data : List Person)
deriving DecidableEq, Repr

/-- One observable call a handler makes while processing a request: a
completed response (`res.status(..).send/.json`, carrying the status and
body), a continuation call `next()`, or the core-http stream calls
`res.writeHead`, `res.write` and `res.end`. -/
inductive Ev where
  | res (status : Nat) (body : Body)
  | next
  | writeHead (status : Nat) (contentType : String)
  | write (body : Body)
  | endR
deriving DecidableEq, Repr

/-- The statuses of the completed responses in a trace, in order. -/
def evStatuses (t : List Ev) : List Nat :=
  t.filterMap
    (fun e =>
      match e with
      | .res s _ => some s
      | .writeHead s _ => some s
      | _ => none)

/-- Is this event a call of the continuation next()? -/
def isNextEv (e : Ev) : Bool :=
  match e with
  | .next => true
  | _ => false

/-- How many times a trace calls next(). -/
def countNext (t : List Ev) : Nat := t.countP isNextEv

/-- Does this event complete the response (send/json, or end)? -/
def completes (e : Ev) : Bool :=
  match e with
  | .res _ _ => true
  | .endR => true
  | _ => false

/-- The single-response discipline of a trace: once an event completes the
response, no further event of any kind is issued; in particular at most
one response is sent per request. -/
def singleResponse : List Ev → Bool
  | [] => true
  | e :: rest => if completes e then rest.isEmpty else singleResponse rest

/-- Modelled from the spec: the hard-coded `products` array lives in
`data.js`, which the example servers require but which is not among the
source files; per the spec the records carry a numeric id, a name and
price/image fields, ids are unique positive integers, `/api/products/1`
returns a product while `/api/products/9999` matches nothing, and the
search examples match the lowercase word "wooden" in some product names. -/
def productsData : List Product :=
  [ ⟨1, "accent chair", 259, "/images/product-1.jpeg"⟩,
    ⟨2, "wooden table", 179, "/images/product-2.jpeg"⟩,
    ⟨3, "wooden desk", 149, "/images/product-3.jpeg"⟩,
    ⟨4, "albany sofa", 399, "/images/product-4.jpeg"⟩ ]

/-- Modelled from the spec: the hard-coded `people` array of `data.js`
(not among the source files); records carry a numeric unique id and a name. -/
def peopleData : List Person :=
  [⟨1, "john"⟩, ⟨2, "peter"⟩, ⟨3, "susan"⟩]

/-! ## Products server, basic variant (the unnamed route/query-params file)

Handlers of the file registering `/`, `/api/products`,
`/api/products/:productId`, the multi-param route, `/api/v1/query`,
`/about` and the wildcard 404 route. -/

/-- GET `/` of the basic variant. -/
def homeBasic : List Ev :=
  [.res 200 (.html "<h1 style='font-family: cursive; font-size: 36px;'>Home page</h1> <a href=\"/api/products\">products</a>")]

/-- GET `/api/products` of the basic variant: maps each product to its
`{ id, name, image }` projection. -/
def productsListBasic (products : List Product) : List Ev :=
  [.res 200 (.jsonBasicInfos (products.map (fun p => ⟨p.id, p.name, p.image⟩)))]

/-- GET `/api/products/:productId` of the basic variant: finds the product
whose id strictly equals `Number(productId)`; 404 when none matches,
200 with the product otherwise.  There is no 400 branch. -/
def productByIdBasic (products : List Product) (productId : String) : List Ev :=
  match products.find? (fun p => JS.eqInt (JS.toNumber productId) p.id) with
  | none =>
    [.res 404 (.html "<h1 style='font-family: cursive; font-size: 28px; color: red'>Product not found</h1>")]
  | some p => [.res 200 (.jsonProduct p)]

/-- GET `/api/products/:productId/userPreferences/:userPreferenceId/reviews/:reviewId`
of the basic variant. -/
def multiParamsBasic (productId userPreferenceId reviewId : String) : List Ev :=
  [.res 200 (.html "<h1 style='font-family: cursive; font-size: 28px;'>Hello, we have processed all your Route Params</h1>")]

/-- The `if (search)` filter of the basic query route: when the search
query parameter is truthy, keep the products whose name includes it
(case-sensitively). -/
def searchFilterBasic (products : List Product) (search : Option String) : List Product :=
  if JS.truthy search then
    products.filter (fun p => JS.includes p.name (search.getD ""))
  else products

/-- The `if (limit)` step of the basic query route: when the limit query
parameter is truthy, `slice(0, Number(limit))` is applied unconditionally. -/
def limitFilterBasic (ps : List Product) (limit : Option String) : List Product :=
  if JS.truthy limit then
    ps.take (JS.sliceEnd ps.length (JS.toNumber (limit.getD "")))
  else ps

/-- GET `/api/v1/query` of the basic variant: copy the products list, apply
the search filter then the limit slice, and answer 200 with either the
empty-result payload or the filtered list. -/
def queryBasic (products : List Product) (search limit : Option String) : List Ev :=
  let r := limitFilterBasic (searchFilterBasic products search) limit
  if r.length < 1 then [.res 200 .jsonSearchEmpty]
  else [.res 200 (.jsonProducts r)]

/-- GET `/about` of the basic variant. -/
def aboutBasic : List Ev :=
  [.res 200 (.html "<h1 style='font-family: cursive; font-size: 36px;'>About page</h1>")]

/-- The wildcard `app.all` route of the basic variant. -/
def wildcardBasic : List Ev :=
  [.res 404 (.html "<h1 style='font-family: cursive; font-size: 28px; color: red'>Resource not found</h1>")]

/-! ## Products server, explained variant (second half of
`08-middleware-basic-explained.js`) -/

/-- GET `/` of the explained variant. -/
def homeExplained : List Ev :=
  [.res 200 (.html "<h1 style='font-family: cursive; font-size: 36px;'>Home page</h1> <a href=\"/api/products\">products</a>")]

/-- GET `/api/products` of the explained variant. -/
def productsListExplained (products : List Product) : List Ev :=
  [.res 200 (.jsonBasicInfos (products.map (fun p => ⟨p.id, p.name, p.image⟩)))]

/-- GET `/api/products/:productId` of the explained variant: 400 when
`Number(productId)` is NaN, 404 when no product has that id, 200 with the
product otherwise. -/
def productByIdExplained (products : List Product) (productId : String) : List Ev :=
  let n := JS.toNumber productId
  if n = .nan then
    [.res 400 (.jsonError "Invalid product ID. Must be a number." productId)]
  else
    match products.find? (fun p => JS.eqInt n p.id) with
    | none => [.res 404 (.jsonNotFound n)]
    | some p => [.res 200 (.jsonProduct p)]

/-- The multi-param route of the explained variant. -/
def multiParamsExplained (productId userPreferenceId reviewId : String) : List Ev :=
  [.res 200 (.jsonMultiParams productId userPreferenceId reviewId)]

/-- The `if (search)` filter of the explained query route: when the search
query parameter is truthy, compare lowercased product names against the
lowercased search term. -/
def searchFilterExplained (products : List Product) (search : Option String) : List Product :=
  if JS.truthy search then
    let searchTerm := JS.toLowerStr (search.getD "")
    products.filter (fun p => JS.includes (JS.toLowerStr p.name) searchTerm)
  else products

/-- Is the limit valid in the explained variant's sense:
`!isNaN(limitNumber) && limitNumber > 0`? -/
def validLimit (n : JS.JSNum) : Bool :=
  match n with
  | .nan => false
  | .inf b => b
  | .num q => 0 < q

/-- The `if (limit)` step of the explained query route: the slice is applied
only when `Number(limit)` is a number greater than zero; an invalid limit is
ignored. -/
def limitFilterExplained (ps : List Product) (limit : Option String) : List Product :=
  if JS.truthy limit then
    let n := JS.toNumber (limit.getD "")
    if validLimit n then ps.take (JS.sliceEnd ps.length n) else ps
  else ps

/-- GET `/api/v1/query` of the explained variant. -/
def queryExplained (products : List Product) (search limit : Option String) : List Ev :=
  let r := limitFilterExplained (searchFilterExplained products search) limit
  if r.length < 1 then [.res 200 .jsonQueryEmpty]
  else [.res 200 (.jsonQueryOk r.length r)]

/-- GET `/about` of the explained variant. -/
def aboutExplained : List Ev :=
  [.res 200 (.html "<h1 style='font-family: cursive; font-size: 36px;'>About page</h1>")]

/-- The catch-all `app.use` 404 handler of the explained variant. -/
def notFoundExplained : List Ev :=
  [.res 404 (.html "<h1 style='font-family: cursive; font-size: 28px; color: red'>Resource not found</h1>")]

/-! ## Middleware -/

/-- The logger middleware (both the basic and the explained file): logs and
unconditionally calls `next()`. -/
def loggerEvents : List Ev := [.next]

/-- The authorize middleware of the basic middleware file: reads the `user`
query parameter; when it is truthy it attaches `req.user = { name: user,
id: 3 }`, calls `next()` and returns; otherwise it answers 401.  Returns
the attached user (if any) together with the event trace. -/
def authorize (user : Option String) : Option AuthUser × List Ev :=
  if JS.truthy user then
    (some ⟨user.getD "", 3⟩, [.next])
  else
    (none, [.res 401 (.html "<h1 style=\"font-family: cursive; color: red\">You are not authorized to access this resource</h1>")])

/-- The authorize middleware of the explained file (concatenated after
`app.js`): identical logic, a different 401 body. -/
def authorizeExplained (user : Option String) : Option AuthUser × List Ev :=
  if JS.truthy user then
    (some ⟨user.getD "", 3⟩, [.next])
  else
    (none, [.res 401 (.html "Unauthorized Access - Please provide a valid user parameter. Example: ?user=yourname")])

/-! ## People controllers (`controllers/people.js`)

The module-level `people` array is a `const` binding that no controller
reassigns; each controller is embedded as a function of the current value
of that binding, returning its event trace together with the value of the
binding after the handler has run. -/

/-- GET `/api/people` — `getPeople`. -/
def getPeople (people : List Person) : List Ev :=
  [.res 200 (.jsonPeople people)]

/-- POST `/api/people` — `createPerson`: 201 echoing the name when the
body's `name` is truthy, 400 otherwise; the people array is not touched. -/
def createPerson (people : List Person) (name : Option String) : List Ev × List Person :=
  if JS.truthy name then
    ([.res 201 (.jsonPersonCreated (name.getD ""))], people)
  else
    ([.res 400 (.jsonMsg false "Please provide user name")], people)

/-- POST `/api/people/postman` — `createPersonPostman`: 201 with a spread
copy of the people array extended by the new record when `name` is truthy,
400 otherwise. -/
def createPersonPostman (people : List Person) (name : Option String) : List Ev × List Person :=
  if JS.truthy name then
    ([.res 201 (.jsonData (people ++ [⟨(people.length : Int) + 1, name.getD ""⟩]))], people)
  else
    ([.res 400 (.jsonMsgData false "Please provide a valid name")], people)

/-- PUT `/api/people/:personId` — `updatePerson`: 400 when the id or the
new name is falsy, 404 when no person has the id, otherwise 200 with a
`map` copy in which the matching record's name is replaced. -/
def updatePerson (people : List Person) (personId : String) (name : Option String) :
    List Ev × List Person :=
  let doesPersonExist := people.find? (fun p => JS.eqInt (JS.toNumber personId) p.id)
  if ¬ JS.truthyStr personId ∨ ¬ JS.truthy name then
    ([.res 400 (.jsonMsg false "Please provide the id of the resource to be updated && their new name")], people)
  else
    match doesPersonExist with
    | none =>
      ([.res 404 (.jsonMsg false ("No resource with the Id " ++ personId ++ " found"))], people)
    | some _ =>
      ([.res 200 (.jsonData (people.map
        (fun p => if JS.eqInt (JS.toNumber personId) p.id then { p with name := name.getD "" } else p)))],
       people)

/-- DELETE `/api/people/:personId` — `deletePerson`: 400 when the id is
falsy, 404 when no person has the id, otherwise 200 with a `filter` copy
without the matching record. -/
def deletePerson (people : List Person) (personId : String) : List Ev × List Person :=
  let doesPersonExist := people.find? (fun p => JS.eqInt (JS.toNumber personId) p.id)
  if ¬ JS.truthyStr personId then
    ([.res 400 (.jsonMsg false "Please provide the id of the resource to be deleted")], people)
  else
    match doesPersonExist with
    | none =>
      ([.res 404 (.jsonMsg false ("No resource with the Id " ++ personId ++ " found"))], people)
    | some _ =>
      ([.res 200 (.jsonData (people.filter
        (fun p => ¬ JS.eqInt (JS.toNumber personId) p.id)))],
       people)

/-- POST `/login` — the form handler of `routes/auth.js`: 200 with a
greeting when the body's `name` is truthy, 400 otherwise. -/
def loginPost (name : Option String) : List Ev :=
  if JS.truthy name then
    [.res 200 (.html ("<h1 style=\"font-family: cursive;\"> Welcome dear <span style=\"color: green\">" ++ name.getD "" ++ "</span></h1>"))]
  else
    [.res 400 (.html "<h1 style=\"font-family: cursive; color: red\">Please provide valid user info</h1>")]

/-- Matching of the path segment bound by the route pattern `/:personId`:
path-to-regexp binds the parameter to one or more characters other than
`/`, so an empty segment never matches. -/
def matchPersonParam (seg : String) : Option String :=
  if seg = "" ∨ seg.data.contains '/' then none else some seg

/-! ## Remaining example servers -/

/-- The single request callback of the core-http basics server
(`01-http-basics.js`): writeHead/write/end with an explicit return on
each matched path. -/
def httpBasics (url : String) : List Ev :=
  if url = "/" then
    [.writeHead 200 "text/html",
     .write (.raw "<h1 style='font-family: cursive; font-size: 28px'>Welcome to our app home page !!</h1>"),
     .endR]
  else if url = "/about" then
    [.writeHead 200 "text/html",
     .write (.raw "<h1 style='font-family: cursive; font-size: 28px'>We are an awesome app, check us out !!</h1>"),
     .endR]
  else
    [.writeHead 404 "text/html",
     .write (.raw "<h1 style='font-family: cursive; font-size: 28px; color: red '>Page not found ):</h1>"),
     .endR]

/-- The single request callback of the core-http navbar-app server
(`02-http-app.js`); the four files read at startup are parameters. -/
def httpApp (homePage styleCss logoSvg browserAppJs : String) (url : String) : List Ev :=
  if url = "/" then
    [.writeHead 200 "text/html", .write (.raw homePage), .endR]
  else if url = "/styles.css" then
    [.writeHead 200 "text/css", .write (.raw styleCss), .endR]
  else if url = "/logo.svg" then
    [.writeHead 200 "image/svg+xml", .write (.raw logoSvg), .endR]
  else if url = "/browser-app.js" then
    [.writeHead 200 "text/javascript", .write (.raw browserAppJs), .endR]
  else if url = "/about" then
    [.writeHead 200 "text/html",
     .write (.raw "<h1 style='font-family: cursive; font-size: 28px'>We are an awesome app, check us out !!</h1>"),
     .endR]
  else
    [.writeHead 404 "text/html",
     .write (.raw "<h1 style='font-family: cursive; font-size: 28px; color: red '>Page not found ):</h1>"),
     .endR]

/-- GET `/` of `04-express-app.js`. -/
def homeApp04 : List Ev :=
  [.res 200 (.html "<h1 style='font-family: cursive; font-size: 28px'>Home Page</h1>")]

/-- GET `/about` of `04-express-app.js`. -/
def aboutApp04 : List Ev :=
  [.res 200 (.html "<h1 style='font-family: cursive; font-size: 28px'>About Page</h1>")]

/-- The wildcard route of `04-express-app.js` (also of `05-all-static.js`). -/
def wildcardApp04 : List Ev :=
  [.res 404 (.html "<h1 style='font-family: cursive; font-size: 28px; color: red'>Resource not found</h1>")]

/-- GET `/` of `05-all-static.js`: sends the navbar-app index file. -/
def homeApp05 : List Ev :=
  [.res 200 (.file "navbar-app/index.html")]

/-- GET `/` of `06-basic-json.js`: the full products array as JSON. -/
def homeApp06 (products : List Product) : List Ev :=
  [.res 200 (.jsonProducts products)]

/-- The wildcard route of `06-basic-json.js`. -/
def wildcardApp06 : List Ev :=
  [.res 404 (.html "\"<h1 style='font-family: cursive; font-size: 28px; color: red'>Resource not found</h1>\"")]

/-- The four fixed page handlers of the two middleware demo files
(`08-middleware-basic-&&-usage.js` and the first half of the explained
file): home, about, products page, customers page. -/
def middlewareDemoPages : List (List Ev) :=
  [ [.res 200 (.html "<h1 style=\"font-family: cursive\">Home Page</h1>")],
    [.res 200 (.html "<h1 style=\"font-family: cursive\">About Page</h1>")],
    [.res 200 (.html "<h1 style=\"font-family: cursive\">Products Page</h1>")],
    [.res 200 (.html "<h1 style=\"font-family: cursive\">Customers Page</h1>")] ]

/-- The error-handling middleware of the explained middleware file:
a single response with the error's status (500 by default). -/
def errorHandlerExplained (status : Option Nat) (msg : String) : List Ev :=
  [.res (status.getD 500) (.jsonMsg false msg)]

/-- The final 404 handler of the explained middleware file. -/
def notFoundMiddlewareExplained : List Ev :=
  [.res 404 (.html "<h1 style=\"font-family: cursive; color: red\">404 - Resource not found</h1>")]

/-! ## Helper lemmas -/

/-- When `Number(productId)` is NaN, the strict-equality search over any
products list finds nothing. -/
lemma find?_eqInt_nan (ps : List Product) (pid : String)
    (h : JS.toNumber pid = JS.JSNum.nan) :
    ps.find? (fun p => JS.eqInt (JS.toNumber pid) p.id) = none := by
  rw [List.find?_eq_none]
  intro p _
  simp [h, JS.eqInt]

/-- When `Number(productId)` is a number matching no id in the list, the
strict-equality search finds nothing. -/
lemma find?_eqInt_num_none (ps : List Product) (pid : String) (q : Rat)
    (h : JS.toNumber pid = JS.JSNum.num q) (hq : ∀ p ∈ ps, (p.id : Rat) ≠ q) :
    ps.find? (fun p => JS.eqInt (JS.toNumber pid) p.id) = none := by
  rw [List.find?_eq_none]
  intro p hp
  simp only [JS.eqInt, h, decide_eq_true_eq]
  exact fun he => hq p hp he.symm

/-- Characterwise lowering yields the empty string only from the empty string. -/
lemma toLowerStr_eq_empty (s : String) : JS.toLowerStr s = "" ↔ s = "" := by
  constructor
  · intro h
    have h2 : s.data.map Char.toLower = [] := congrArg String.data h
    have h3 : s.data = [] := by simpa using h2
    cases s with
    | mk l =>
      cases h3
      rfl
  · intro h
    rw [h]
    rfl

/-- A limit whose `Number` value fails the explained validation is ignored. -/
lemma limitFilterExplained_invalid (xs : List Product) (l : String)
    (h : validLimit (JS.toNumber l) = false) :
    limitFilterExplained xs (some l) = xs := by
  unfold limitFilterExplained
  by_cases hl : l = ""
  · simp [JS.truthy, JS.truthyStr, hl]
  · simp [JS.truthy, JS.truthyStr, hl, h]

/-- The explained limit step is the identity when no limit is supplied. -/
lemma limitFilterExplained_none (xs : List Product) :
    limitFilterExplained xs none = xs := by
  simp [limitFilterExplained, JS.truthy]

/-- The explained search filter only depends on the lowercased search term. -/
lemma searchFilterExplained_congr (ps : List Product) (s1 s2 : String)
    (h : JS.toLowerStr s1 = JS.toLowerStr s2) :
    searchFilterExplained ps (some s1) = searchFilterExplained ps (some s2) := by
  unfold searchFilterExplained
  by_cases h1 : s1 = ""
  · have h2 : s2 = "" := by
      apply (toLowerStr_eq_empty s2).mp
      rw [← h, h1]
      rfl
    rw [h1, h2]
  · have h2 : s2 ≠ "" := by
      intro he
      apply h1
      apply (toLowerStr_eq_empty s1).mp
      rw [h, he]
      rfl
    have t1 : JS.truthy (some s1) = true := by simp [JS.truthy, JS.truthyStr, h1]
    have t2 : JS.truthy (some s2) = true := by simp [JS.truthy, JS.truthyStr, h2]
    simp only [t1, t2, if_true, Option.getD_some]
    rw [h]

/-! ## Claims -/

/-- C1 (counterexample): in the basic products variant, GET
`/api/products/abc` — whose productId does not parse as a number — is
answered with status 404, not with the claimed 400: the basic variant has
no 400 branch. -/
theorem basic_productId_abc_not_400 :
    evStatuses (productByIdBasic productsData "abc") ≠ [400] ∧
    evStatuses (productByIdBasic productsData "abc") = [404] := by
  decide

/-- C1 (amended): for every GET request to `/api/products/:productId` whose
productId does not parse as a number, the explained variant responds with
status 400, while the basic variant — which has no 400 branch — responds
with status 404. -/
theorem nonNumeric_productId_400_explained_404_basic :
    (∀ (ps : List Product) (pid : String), JS.toNumber pid = JS.JSNum.nan →
      evStatuses (productByIdExplained ps pid) = [400]) ∧
    (∀ (ps : List Product) (pid : String), JS.toNumber pid = JS.JSNum.nan →
      evStatuses (productByIdBasic ps pid) = [404]) := by
  constructor
  · intro ps pid h
    simp [productByIdExplained, h, evStatuses]
  · intro ps pid h
    unfold productByIdBasic
    rw [find?_eqInt_nan ps pid h]
    rfl

/-- C1 (witness): the amended statement applied to the modelled products
list and the concrete non-numeric id "abc". -/
theorem nonNumeric_productId_witness :
    JS.toNumber "abc" = JS.JSNum.nan ∧
    evStatuses (productByIdExplained productsData "abc") = [400] ∧
    evStatuses (productByIdBasic productsData "abc") = [404] :=
  ⟨by decide,
   nonNumeric_productId_400_explained_404_basic.1 productsData "abc" (by decide),
   nonNumeric_productId_400_explained_404_basic.2 productsData "abc" (by decide)⟩

/-- C2 (counterexample): in the basic query variant, `?limit=abc` is not
ignored: the response is still a 200, but `slice(0, Number("abc"))` keeps
zero products, so the response differs from the one sent when no limit
parameter is supplied. -/
theorem basic_limit_abc_changes_response :
    evStatuses (queryBasic productsData none (some "abc")) = [200] ∧
    queryBasic productsData none (some "abc") ≠ queryBasic productsData none none := by
  decide

/-- C2 (amended): in the explained query variant the invalid limits "-5"
and "abc" are ignored — the response equals the one sent with no limit
parameter — while in the basic variant `Number(limit)` is passed to
`slice` unvalidated, so on any non-empty products list `?limit=abc`
changes the response. -/
theorem invalid_limit_ignored_explained_not_basic :
    (∀ (ps : List Product) (s : Option String),
      queryExplained ps s (some "-5") = queryExplained ps s none) ∧
    (∀ (ps : List Product) (s : Option String),
      queryExplained ps s (some "abc") = queryExplained ps s none) ∧
    (∀ ps : List Product, ps ≠ [] →
      queryBasic ps none (some "abc") ≠ queryBasic ps none none) := by
  refine ⟨?_, ?_, ?_⟩
  · intro ps s
    unfold queryExplained
    rw [limitFilterExplained_invalid _ "-5" (by decide), limitFilterExplained_none]
  · intro ps s
    unfold queryExplained
    rw [limitFilterExplained_invalid _ "abc" (by decide), limitFilterExplained_none]
  · intro ps hps
    have h1 : queryBasic ps none (some "abc") = [Ev.res 200 Body.jsonSearchEmpty] := by
      unfold queryBasic limitFilterBasic searchFilterBasic
      have hs : JS.sliceEnd ps.length (JS.toNumber "abc") = 0 := by
        rw [(by decide : JS.toNumber "abc" = JS.JSNum.nan)]
        rfl
      simp [JS.truthy, JS.truthyStr, hs]
    have h2 : queryBasic ps none none = [Ev.res 200 (Body.jsonProducts ps)] := by
      unfold queryBasic limitFilterBasic searchFilterBasic
      simp [JS.truthy]
      exact hps
    rw [h1, h2]
    simp

/-- C2 (witness): the amended statement applied to the modelled products
list. -/
theorem invalid_limit_witness :
    queryExplained productsData none (some "-5") = queryExplained productsData none none ∧
    queryExplained productsData none (some "abc") = queryExplained productsData none none ∧
    (productsData ≠ [] ∧
      queryBasic productsData none (some "abc") ≠ queryBasic productsData none none) :=
  ⟨invalid_limit_ignored_explained_not_basic.1 productsData none,
   invalid_limit_ignored_explained_not_basic.2.1 productsData none,
   by decide,
   invalid_limit_ignored_explained_not_basic.2.2 productsData (by decide)⟩

/-- C3: in the explained query variant, two search terms with the same
lowercasing produce identical responses (the search filter selects the
same records), while in the basic variant the search "WOODEN" and the
search "wooden" produce different responses on the modelled products list
(case-sensitive `includes`). -/
theorem search_case_insensitive_explained_sensitive_basic :
    (∀ (ps : List Product) (l : Option String) (s1 s2 : String),
      JS.toLowerStr s1 = JS.toLowerStr s2 →
      queryExplained ps (some s1) l = queryExplained ps (some s2) l) ∧
    queryBasic productsData (some "WOODEN") none ≠ queryBasic productsData (some "wooden") none := by
  constructor
  · intro ps l s1 s2 h
    unfold queryExplained
    rw [searchFilterExplained_congr ps s1 s2 h]
  · decide

/-- C3 (witness): the case-insensitivity statement applied to the modelled
products list and the concrete pair "WOODEN"/"wooden". -/
theorem search_case_witness :
    JS.toLowerStr "WOODEN" = JS.toLowerStr "wooden" ∧
    queryExplained productsData (some "WOODEN") none = queryExplained productsData (some "wooden") none :=
  ⟨by decide,
   search_case_insensitive_explained_sensitive_basic.1 productsData none "WOODEN" "wooden" (by decide)⟩

/-- C4: the single-response-per-request invariant: every embedded handler
and middleware of the repository, on every execution path, completes at
most one response and issues no call after completing it (the explicit
`return` after each `res.send`/`res.json`/`next()` in the source). -/
theorem single_response_per_request :
    (∀ url, singleResponse (httpBasics url) = true) ∧
    (∀ hp cs lg aj url, singleResponse (httpApp hp cs lg aj url) = true) ∧
    singleResponse homeApp04 = true ∧
    singleResponse aboutApp04 = true ∧
    singleResponse wildcardApp04 = true ∧
    singleResponse homeApp05 = true ∧
    (∀ ps, singleResponse (homeApp06 ps) = true) ∧
    singleResponse wildcardApp06 = true ∧
    singleResponse homeBasic = true ∧
    (∀ ps, singleResponse (productsListBasic ps) = true) ∧
    (∀ ps pid, singleResponse (productByIdBasic ps pid) = true) ∧
    (∀ a b c, singleResponse (multiParamsBasic a b c) = true) ∧
    (∀ ps s l, singleResponse (queryBasic ps s l) = true) ∧
    singleResponse aboutBasic = true ∧
    singleResponse wildcardBasic = true ∧
    singleResponse homeExplained = true ∧
    (∀ ps, singleResponse (productsListExplained ps) = true) ∧
    (∀ ps pid, singleResponse (productByIdExplained ps pid) = true) ∧
    (∀ a b c, singleResponse (multiParamsExplained a b c) = true) ∧
    (∀ ps s l, singleResponse (queryExplained ps s l) = true) ∧
    singleResponse aboutExplained = true ∧
    singleResponse notFoundExplained = true ∧
    singleResponse loggerEvents = true ∧
    (∀ u, singleResponse (authorize u).2 = true) ∧
    (∀ u, singleResponse (authorizeExplained u).2 = true) ∧
    middlewareDemoPages.all singleResponse = true ∧
    (∀ st msg, singleResponse (errorHandlerExplained st msg) = true) ∧
    singleResponse notFoundMiddlewareExplained = true ∧
    (∀ ppl, singleResponse (getPeople ppl) = true) ∧
    (∀ ppl nm, singleResponse (createPerson ppl nm).1 = true) ∧
    (∀ ppl nm, singleResponse (createPersonPostman ppl nm).1 = true) ∧
    (∀ ppl pid nm, singleResponse (updatePerson ppl pid nm).1 = true) ∧
    (∀ ppl pid, singleResponse (deletePerson ppl pid).1 = true) ∧
    (∀ nm, singleResponse (loginPost nm) = true) := by
  refine ⟨?_, ?_, rfl, rfl, rfl, rfl, ?_, rfl, rfl, ?_, ?_, ?_, ?_, rfl, rfl, rfl,
    ?_, ?_, ?_, ?_, rfl, rfl, rfl, ?_, ?_, rfl, ?_, rfl, ?_, ?_, ?_, ?_, ?_, ?_⟩
  · intro url
    unfold httpBasics
    repeat' split
    all_goals rfl
  · intro hp cs lg aj url
    unfold httpApp
    repeat' split
    all_goals rfl
  · intro ps
    rfl
  · intro ps
    rfl
  · intro ps pid
    unfold productByIdBasic
    split
    all_goals rfl
  · intro a b c
    rfl
  · intro ps s l
    unfold queryBasic
    dsimp only
    split
    all_goals rfl
  · intro ps
    rfl
  · intro ps pid
    unfold productByIdExplained
    dsimp only
    repeat' split
    all_goals rfl
  · intro a b c
    rfl
  · intro ps s l
    unfold queryExplained
    dsimp only
    split
    all_goals rfl
  · intro u
    unfold authorize
    split
    all_goals rfl
  · intro u
    unfold authorizeExplained
    split
    all_goals rfl
  · intro st msg
    rfl
  · intro ppl
    rfl
  · intro ppl nm
    unfold createPerson
    split
    all_goals rfl
  · intro ppl nm
    unfold createPersonPostman
    split
    all_goals rfl
  · intro ppl pid nm
    unfold updatePerson
    dsimp only
    repeat' split
    all_goals rfl
  · intro ppl pid
    unfold deletePerson
    dsimp only
    repeat' split
    all_goals rfl
  · intro nm
    unfold loginPost
    split
    all_goals rfl

/-- C5: the people mutation operations compute their result as a new
in-memory array — a spread-append for createPersonPostman, a map for
updatePerson, a filter for deletePerson — and leave the shared people
array itself unchanged on every path; no backing store exists in the
embedding, matching the source. -/
theorem people_mutations_pure :
    ∀ (ppl : List Person) (pid : String) (nm : Option String),
      (updatePerson ppl pid nm).2 = ppl ∧
      (deletePerson ppl pid).2 = ppl ∧
      (createPersonPostman ppl nm).2 = ppl ∧
      (JS.truthy nm = true →
        (createPersonPostman ppl nm).1 =
          [Ev.res 201 (Body.jsonData (ppl ++ [⟨(ppl.length : Int) + 1, nm.getD ""⟩]))]) ∧
      (JS.truthyStr pid = true → JS.truthy nm = true →
        (ppl.find? (fun p => JS.eqInt (JS.toNumber pid) p.id)).isSome = true →
        (updatePerson ppl pid nm).1 =
          [Ev.res 200 (Body.jsonData (ppl.map (fun p =>
            if JS.eqInt (JS.toNumber pid) p.id then { p with name := nm.getD "" } else p)))]) ∧
      (JS.truthyStr pid = true →
        (ppl.find? (fun p => JS.eqInt (JS.toNumber pid) p.id)).isSome = true →
        (deletePerson ppl pid).1 =
          [Ev.res 200 (Body.jsonData (ppl.filter (fun p =>
            ¬ JS.eqInt (JS.toNumber pid) p.id)))]) := by
  intro ppl pid nm
  refine ⟨?_, ?_, ?_, ?_, ?_, ?_⟩
  · unfold updatePerson
    dsimp only
    repeat' split
    all_goals rfl
  · unfold deletePerson
    dsimp only
    repeat' split
    all_goals rfl
  · unfold createPersonPostman
    split
    all_goals rfl
  · intro h
    simp [createPersonPostman, h]
  · intro h1 h2 h3
    cases hf : ppl.find? (fun p => JS.eqInt (JS.toNumber pid) p.id) with
    | none =>
      rw [hf] at h3
      simp at h3
    | some p =>
      simp [updatePerson, hf, h1, h2]
  · intro h1 h3
    cases hf : ppl.find? (fun p => JS.eqInt (JS.toNumber pid) p.id) with
    | none =>
      rw [hf] at h3
      simp at h3
    | some p =>
      simp [deletePerson, hf, h1]

/-- C5 (witness): the statement applied to the modelled people list, id "2"
and the new name "mary". -/
theorem people_mutations_pure_witness :
    (updatePerson peopleData "2" (some "mary")).2 = peopleData ∧
    (deletePerson peopleData "2").2 = peopleData ∧
    (createPersonPostman peopleData (some "mary")).2 = peopleData ∧
    (createPersonPostman peopleData (some "mary")).1 =
      [Ev.res 201 (Body.jsonData (peopleData ++ [⟨(peopleData.length : Int) + 1, "mary"⟩]))] ∧
    (updatePerson peopleData "2" (some "mary")).1 =
      [Ev.res 200 (Body.jsonData (peopleData.map (fun p =>
        if JS.eqInt (JS.toNumber "2") p.id then { p with name := "mary" } else p)))] ∧
    (deletePerson peopleData "2").1 =
      [Ev.res 200 (Body.jsonData (peopleData.filter (fun p =>
        ¬ JS.eqInt (JS.toNumber "2") p.id)))] := by
  have h := people_mutations_pure peopleData "2" (some "mary")
  exact ⟨h.1, h.2.1, h.2.2.1, h.2.2.2.1 (by decide),
    h.2.2.2.2.1 (by decide) (by decide) (by decide),
    h.2.2.2.2.2 (by decide) (by decide)⟩

/-- C6: both authorize middlewares respond 401 without calling next()
exactly when the user query parameter is absent or empty; when it is
truthy they attach the user object to the request and their whole trace is
the single next() call, so no response is sent. -/
theorem authorize_401_iff_unauthenticated :
    ∀ user : Option String,
      ((user = none ∨ user = some "") ↔
        (evStatuses (authorize user).2 = [401] ∧ countNext (authorize user).2 = 0)) ∧
      (JS.truthy user = true →
        (authorize user).1 = some ⟨user.getD "", 3⟩ ∧ (authorize user).2 = [Ev.next]) ∧
      ((user = none ∨ user = some "") ↔
        (evStatuses (authorizeExplained user).2 = [401] ∧
          countNext (authorizeExplained user).2 = 0)) ∧
      (JS.truthy user = true →
        (authorizeExplained user).1 = some ⟨user.getD "", 3⟩ ∧
          (authorizeExplained user).2 = [Ev.next]) := by
  intro user
  cases user with
  | none =>
    simp [authorize, authorizeExplained, JS.truthy, evStatuses, countNext, isNextEv]
  | some s =>
    by_cases hs : s = "" <;>
      simp [authorize, authorizeExplained, JS.truthy, JS.truthyStr, hs,
        evStatuses, countNext, isNextEv]

/-- C6 (witness): the statement applied to an authenticated request
(?user=john) and to an unauthenticated one (no user parameter). -/
theorem authorize_401_iff_unauthenticated_witness :
    JS.truthy (some "john") = true ∧
    (authorize (some "john")).1 = some ⟨"john", 3⟩ ∧
    (authorize (some "john")).2 = [Ev.next] ∧
    (evStatuses (authorize none).2 = [401] ∧ countNext (authorize none).2 = 0) := by
  refine ⟨by decide, ?_, ?_, ?_⟩
  · exact ((authorize_401_iff_unauthenticated (some "john")).2.1 (by decide)).1
  · exact ((authorize_401_iff_unauthenticated (some "john")).2.1 (by decide)).2
  · exact (authorize_401_iff_unauthenticated none).1.mp (Or.inl rfl)

/-- C7: for every GET `/api/products/:productId` request whose productId
parses to a number matching no product's id, both the basic and the
explained products variants respond with status 404. -/
theorem unmatched_numeric_productId_404 :
    ∀ (ps : List Product) (pid : String) (q : Rat),
      JS.toNumber pid = JS.JSNum.num q →
      (∀ p ∈ ps, (p.id : Rat) ≠ q) →
      evStatuses (productByIdBasic ps pid) = [404] ∧
      evStatuses (productByIdExplained ps pid) = [404] := by
  intro ps pid q h hq
  have hf : ps.find? (fun p => JS.eqInt (JS.toNumber pid) p.id) = none :=
    find?_eqInt_num_none ps pid q h hq
  constructor
  · unfold productByIdBasic
    rw [hf]
    rfl
  · unfold productByIdExplained
    dsimp only
    rw [h] at hf ⊢
    simp [hf, evStatuses]

/-- C7 (witness): the statement applied to the modelled products list and
the concrete unmatched id "9999". -/
theorem unmatched_numeric_productId_witness :
    JS.toNumber "9999" = JS.JSNum.num 9999 ∧
    evStatuses (productByIdBasic productsData "9999") = [404] ∧
    evStatuses (productByIdExplained productsData "9999") = [404] :=
  ⟨by decide,
   (unmatched_numeric_productId_404 productsData "9999" 9999 (by decide) (by decide)).1,
   (unmatched_numeric_productId_404 productsData "9999" 9999 (by decide) (by decide)).2⟩

/-- C8: every POST body whose parsed name field is absent or empty (hence
not truthy) is answered with status 400 by createPerson,
createPersonPostman and the /login form handler. -/
theorem missing_name_400 :
    ∀ (ppl : List Person) (nm : Option String),
      nm = none ∨ nm = some "" →
      evStatuses (createPerson ppl nm).1 = [400] ∧
      evStatuses (createPersonPostman ppl nm).1 = [400] ∧
      evStatuses (loginPost nm) = [400] := by
  intro ppl nm h
  have ht : JS.truthy nm = false := by
    rcases h with h | h <;> rw [h] <;> rfl
  refine ⟨?_, ?_, ?_⟩
  · simp [createPerson, ht, evStatuses]
  · simp [createPersonPostman, ht, evStatuses]
  · simp [loginPost, ht, evStatuses]

/-- C8 (witness): the statement applied to the modelled people list and a
body with no name field. -/
theorem missing_name_400_witness :
    evStatuses (createPerson peopleData none).1 = [400] ∧
    evStatuses (createPersonPostman peopleData none).1 = [400] ∧
    evStatuses (loginPost none) = [400] :=
  missing_name_400 peopleData none (Or.inl rfl)

/-- C9: for every POST body with a truthy name, createPerson responds 201
with the success/person payload but never adds the new person to the
people list: the binding is unchanged and getPeople returns exactly the
same response after the POST as before it. -/
theorem createPerson_does_not_persist :
    ∀ (ppl : List Person) (s : String),
      s ≠ "" →
      (createPerson ppl (some s)).1 = [Ev.res 201 (Body.jsonPersonCreated s)] ∧
      (createPerson ppl (some s)).2 = ppl ∧
      getPeople (createPerson ppl (some s)).2 = getPeople ppl := by
  intro ppl s hs
  have ht : JS.truthy (some s) = true := by
    simp [JS.truthy, JS.truthyStr, hs]
  refine ⟨?_, ?_, ?_⟩
  · simp [createPerson, ht]
  · simp [createPerson, ht]
  · have h2 : (createPerson ppl (some s)).2 = ppl := by simp [createPerson, ht]
    rw [h2]

/-- C9 (witness): the statement applied to the modelled people list and
the concrete name "mary". -/
theorem createPerson_does_not_persist_witness :
    ("mary" : String) ≠ "" ∧
    (createPerson peopleData (some "mary")).1 = [Ev.res 201 (Body.jsonPersonCreated "mary")] ∧
    (createPerson peopleData (some "mary")).2 = peopleData ∧
    getPeople (createPerson peopleData (some "mary")).2 = getPeople peopleData :=
  ⟨by decide,
   (createPerson_does_not_persist peopleData "mary" (by decide)).1,
   (createPerson_does_not_persist peopleData "mary" (by decide)).2.1,
   (createPerson_does_not_persist peopleData "mary" (by decide)).2.2⟩

/-- C10: deletePerson's 400 branch is unreachable through the route
`/:personId`: any segment that the route pattern binds to personId is a
non-empty string, so deletePerson answers either 404 (no person with that
id) or 200 (the filtered list), never 400. -/
theorem deletePerson_400_unreachable :
    ∀ (seg : String) (ppl : List Person) (pid : String),
      matchPersonParam seg = some pid →
      (evStatuses (deletePerson ppl pid).1 = [404] ∨
        evStatuses (deletePerson ppl pid).1 = [200]) ∧
      evStatuses (deletePerson ppl pid).1 ≠ [400] := by
  intro seg ppl pid hm
  have hpid : pid ≠ "" := by
    unfold matchPersonParam at hm
    split at hm
    · cases hm
    · next hcond =>
      injection hm with h2
      subst h2
      push_neg at hcond
      exact hcond.1
  have ht : JS.truthyStr pid = true := by
    simp [JS.truthyStr, hpid]
  have hshape :
      evStatuses (deletePerson ppl pid).1 = [404] ∨
      evStatuses (deletePerson ppl pid).1 = [200] := by
    unfold deletePerson
    dsimp only
    rw [if_neg (by simp [ht])]
    cases ppl.find? (fun p => JS.eqInt (JS.toNumber pid) p.id) with
    | none => left; rfl
    | some p => right; rfl
  refine ⟨hshape, ?_⟩
  rcases hshape with h | h <;> rw [h] <;> decide

/-- C10 (witness): the statement applied to the concrete segment "77",
which the route binds to personId and which matches no modelled person. -/
theorem deletePerson_400_unreachable_witness :
    matchPersonParam "77" = some "77" ∧
    (evStatuses (deletePerson peopleData "77").1 = [404] ∨
      evStatuses (deletePerson peopleData "77").1 = [200]) ∧
    evStatuses (deletePerson peopleData "77").1 ≠ [400] :=
  ⟨by decide,
   (deletePerson_400_unreachable "77" peopleData "77" (by decide)).1,
   (deletePerson_400_unreachable "77" peopleData "77" (by decide)).2⟩
